import Mathlib

/-!
Shallow embedding of `src/vibe_workflow.py` (the `vibe` repository's single
source file) and verification of its specification claims.

Conventions of the embedding:
* Python strings are Lean `String`s; apostrophes inside literals are written
  with the escape `\x27`.
* The filesystem is a `FileSys`: a map from path strings to optional file
  contents, plus the list of directories created by the program.
  `pathlib.Path` normalisation is not modelled; paths are raw strings, and
  `Path(dir) / name` is modelled by `joinPath` (Python drops a `"."` parent).
* The process environment is a map `String → Option String`.  The source
  never reads it (the `os.getenv` call is commented out), so it is a
  parameter that the embedded `main` ignores.
* `call_llm` in the source is a placeholder: it prints the prompt and returns
  a fixed f-string; the OpenAI request is commented out.  The embedding
  returns the response together with the number of network requests issued
  (`0` for the placeholder body).
* `print`s to stdout are not modelled; messages printed to stderr by `main`
  and by `argparse` are collected, since the claims talk about them.
* `argparse` (Python stdlib): on a wrong number of positional arguments it
  prints the usage message to stderr and calls `sys.exit(2)`.  Option
  extraction (`--output`, `--use-llm`) is done by the caller of `parse_args`
  in the model; `parse_args` receives the positional arguments.
-/

namespace Vibe

/-- Characters removed by Python `str.strip()`: exactly those `str.isspace()`
accepts — the ASCII whitespace `\t`, `\n`, `\x0b`, `\x0c`, `\r`, space, the
separators `\x1c`-`\x1f`, next line `\x85`, no-break space `\xa0`, ogham
space mark U+1680, the quad/space family U+2000-U+200A, line separator
U+2028, paragraph separator U+2029, narrow no-break space U+202F, medium
mathematical space U+205F, and ideographic space U+3000. -/
def isPySpace (c : Char) : Bool :=
  c = ' ' || c = '\t' || c = '\n' || c = '\r' || c = '\x0b' || c = '\x0c' ||
  c = '\x1c' || c = '\x1d' || c = '\x1e' || c = '\x1f' ||
  c = '\x85' || c = '\xa0' || c = '\u1680' ||
  ('\u2000' ≤ c && c ≤ '\u200a') ||
  c = '\u2028' || c = '\u2029' || c = '\u202f' || c = '\u205f' || c = '\u3000'

/-- Drop leading Python-whitespace characters from a character list. -/
def lstripL : List Char → List Char
  | [] => []
  | c :: cs => if isPySpace c then lstripL cs else c :: cs

/-- Drop trailing Python-whitespace characters from a character list. -/
def rstripL (l : List Char) : List Char :=
  (lstripL l.reverse).reverse

/-- Python `str.strip()`: remove leading and trailing whitespace. -/
def pyStrip (s : String) : String :=
  String.mk (lstripL (rstripL s.data))

/-- The filesystem visible to the program: file contents by path, and the
set of directories the program has created (`mkdir -p`). -/
structure FileSys where
  files : String → Option String
  dirs : List String

/-- `Path(dir) / name` rendered as a string; `pathlib` drops a `"."` parent. -/
def joinPath (dir name : String) : String :=
  if dir = "." then name else dir ++ "/" ++ name

/-- `VibeWorkflow._read_file`: raise `FileNotFoundError` if the path does not
exist, otherwise return the file's text content stripped of leading and
trailing whitespace (`filepath.read_text().strip()`). -/
def read_file (files : String → Option String) (filepath : String) :
    Except String String :=
  match files filepath with
  | none => .error ("File not found: " ++ filepath)
  | some content => .ok (pyStrip content)

/-- `VibeWorkflow._save_file`: write `content` to `output_dir / filename`,
overwriting any existing file of that name. -/
def save_file (fs : FileSys) (output_dir filename content : String) : FileSys :=
  { fs with
    files := fun p =>
      if p = joinPath output_dir filename then some content else fs.files p }

/-- The state of a constructed `VibeWorkflow` object. -/
structure Workflow where
  product_description : String
  tools_list : String
  output_dir : String

/-- `VibeWorkflow.__init__`: read the product file, then the tools file
(either read raising `FileNotFoundError` aborts construction with the
filesystem untouched), then create the output directory unless it is `"."`.
Returns the constructed object or the exception message, together with the
resulting filesystem. -/
def VibeWorkflow.init (fs : FileSys) (product_file tools_file output_dir : String) :
    Except String Workflow × FileSys :=
  match read_file fs.files product_file with
  | .error e => (.error e, fs)
  | .ok product_description =>
    match read_file fs.files tools_file with
    | .error e => (.error e, fs)
    | .ok tools_list =>
      (.ok { product_description := product_description,
             tools_list := tools_list,
             output_dir := output_dir },
       if output_dir = "." then fs else { fs with dirs := output_dir :: fs.dirs })

/-- Fixed text of the architecture f-string before `{self.product_description}`. -/
def arch_template_pre : String := "I\x27m building a "

/-- Fixed text of the architecture f-string between the two interpolations. -/
def arch_template_mid : String := ". Use "

/-- Fixed text of the architecture f-string after `{self.tools_list}`. -/
def arch_template_post : String :=
  ". Give me the full architecture:\n   - File + folder structure\n   - What each part does\n   - Where state lives, how services connect.\nFormat this entire document in markdown.\nDo not use icons or emoticons."

/-- `VibeWorkflow.generate_architecture_prompt`: the architecture f-string
template with the two loaded inputs interpolated. -/
def generate_architecture_prompt (w : Workflow) : String :=
  arch_template_pre ++ w.product_description ++ arch_template_mid ++
    w.tools_list ++ arch_template_post

/-- Fixed text of the tasks f-string before `{architecture}`. -/
def tasks_template_pre : String := "Using this architecture:\n\n"

/-- Fixed text of the tasks f-string after `{architecture}`. -/
def tasks_template_post : String :=
  "\n\nWrite a granular step-by-step plan to build the MVP. Each task should:\n   - Be incredibly small + testable\n   - Have a clear start + end\n   - Focus on one concern\nI\x27ll be passing this off to an engineering LLM that will be told to complete one task at a time, allowing me to test in between. Do not use icons or emoticons."

/-- `VibeWorkflow.generate_tasks_prompt`: the tasks f-string template with the
architecture text interpolated. -/
def generate_tasks_prompt (architecture : String) : String :=
  tasks_template_pre ++ architecture ++ tasks_template_post

/-- `VibeWorkflow.call_llm`: the body is a placeholder — it prints the prompt
and returns the fixed f-string `"[LLM Response would go here for: {model}]"`;
the actual OpenAI request is commented out in the source.  The second
component is the number of network requests the call issues: `0`. -/
def call_llm (_prompt : String) (model : String) : String × Nat :=
  ("[LLM Response would go here for: " ++ model ++ "]", 0)

/-- The default `model` argument of `call_llm` in the source. -/
def default_model : String := "gpt-4"

/-- The hardcoded fallback returned by `get_existing_agents_md` when the
co-located `agents.md` template file does not exist (the string literal from
the source, verbatim). -/
def fallback_agents_md : String :=
  "# AGENTS.md - Coding Agent Guidelines\n\n## Build/Test Commands\n- No package.json found - this is a template/documentation repository\n- No specific build or test commands available\n- Check for project-specific build files when implementing actual projects\n\n## Engineering Principles\n- Write the absolute minimum code required\n- No sweeping changes\n- No unrelated edits\n- Focus on just the task you\x27re on\n- Make code precise, modular, testable\n- Don\x27t break existing functionality\n- If I need to do anything (e.g. bash/python etc.), tell me clearly\n\n## Code Style Guidelines\n- Follow existing patterns in the codebase\n- Use clear, descriptive naming conventions\n- Keep functions small and focused on single concerns\n- Prefer explicit over implicit code\n- No comments unless absolutely necessary for complex logic\n- Test each small change before moving to the next task\n\n## Workflow\n- Read architecture.md and tasks.md before starting\n- Complete one task at a time from tasks.md\n- Stop after each task for testing/validation\n- Commit only when explicitly requested"

/-- `VibeWorkflow.get_existing_agents_md`: if the co-located `agents.md`
template exists its content is returned unmodified (`read_text()`, no strip);
otherwise the hardcoded fallback literal is returned.  The template file's
content (or its absence) is the `agents_template` argument. -/
def get_existing_agents_md (agents_template : Option String) : String :=
  match agents_template with
  | some content => content
  | none => fallback_agents_md

/-- The non-LLM (`use_llm = False`) content of `architecture.md` built
in `VibeWorkflow.run`. -/
def default_architecture (w : Workflow) (arch_prompt : String) : String :=
  "# Architecture\n\n## Product Description\n" ++ w.product_description ++
  "\n\n## Tools\n" ++ w.tools_list ++
  "\n\n[LLM will generate architecture here based on the prompt below]\n\n---\n**Prompt for LLM:**\n```\n"
  ++ arch_prompt ++ "\n```"

/-- The non-LLM (`use_llm = False`) content of `tasks.md` built in
`VibeWorkflow.run`. -/
def default_tasks (tasks_prompt : String) : String :=
  "# Tasks\n\n[LLM will generate tasks based on architecture.md]\n\n---\n**Prompt for LLM:**\n```\n"
  ++ tasks_prompt ++ "\n```"

/-- `VibeWorkflow.run`: generate and save `architecture.md`, then `tasks.md`
(its prompt embeds the architecture text), then `agents.md`.  Returns the
resulting filesystem and the total number of network requests issued. -/
def Workflow.run (w : Workflow) (fs : FileSys) (use_llm : Bool)
    (agents_template : Option String) : FileSys × Nat :=
  let arch_prompt := generate_architecture_prompt w
  let archRes :=
    if use_llm then call_llm arch_prompt default_model
    else (default_architecture w arch_prompt, 0)
  let architecture := archRes.1
  let fs1 := save_file fs w.output_dir "architecture.md" architecture
  let tasks_prompt := generate_tasks_prompt architecture
  let tasksRes :=
    if use_llm then call_llm tasks_prompt default_model
    else (default_tasks tasks_prompt, 0)
  let fs2 := save_file fs1 w.output_dir "tasks.md" tasksRes.1
  let agents := get_existing_agents_md agents_template
  let fs3 := save_file fs2 w.output_dir "agents.md" agents
  (fs3, archRes.2 + tasksRes.2)

/-- The parsed command-line arguments of `main`. -/
structure Args where
  product_file : String
  tools_file : String
  output : String
  use_llm : Bool

/-- The usage line `argparse` generates for this parser and prints on an
argument error. -/
def usage_message : String :=
  "usage: vibe_workflow.py [-h] [--output OUTPUT] [--use-llm] product_file tools_file"

/-- `parser.parse_args()` restricted to the positional arguments (the
`--output`/`-o` value and the `--use-llm` flag are extracted by the caller).
`argparse` requires exactly the two positionals `product_file` and
`tools_file`; on any other count it prints the usage message to stderr and
exits the process with status 2. -/
def parse_args (positionals : List String) (output : String) (use_llm : Bool) :
    Except (String × Nat) Args :=
  match positionals with
  | [product_file, tools_file] =>
    .ok { product_file := product_file, tools_file := tools_file,
          output := output, use_llm := use_llm }
  | _ => .error (usage_message, 2)

/-- The observable outcome of one process invocation. -/
structure RunResult where
  fs : FileSys
  exit_code : Nat
  net_calls : Nat
  stderr : List String

/-- `main`: parse the arguments (an `argparse` error exits with status 2
before the `try` block is entered), construct the `VibeWorkflow` and run it
inside `try/except` (`print(f"Error: {e}", file=sys.stderr); sys.exit(1)`),
and exit 0 on success.  `env` is the process environment: the source never
reads it (`os.getenv` appears only inside comments), so it is unused. -/
def main (_env : String → Option String) (fs : FileSys)
    (positionals : List String) (output : String) (use_llm : Bool)
    (agents_template : Option String) : RunResult :=
  match parse_args positionals output use_llm with
  | .error (msg, code) =>
    { fs := fs, exit_code := code, net_calls := 0, stderr := [msg] }
  | .ok args =>
    match VibeWorkflow.init fs args.product_file args.tools_file args.output with
    | (.error e, fs1) =>
      { fs := fs1, exit_code := 1, net_calls := 0, stderr := ["Error: " ++ e] }
    | (.ok w, fs1) =>
      let res := w.run fs1 args.use_llm agents_template
      { fs := res.1, exit_code := 0, net_calls := res.2, stderr := [] }

/-! ### Helper notions and lemmas -/

/-- `small` occurs verbatim as a substring of `big`. -/
def substringOf (small big : String) : Prop :=
  small.data <:+: big.data

/-- `lstripL` removes a (fully whitespace) prefix of its argument. -/
theorem lstripL_decomp (l : List Char) :
    ∃ w, (∀ c ∈ w, isPySpace c = true) ∧ l = w ++ lstripL l := by
  induction l with
  | nil => exact ⟨[], by simp, rfl⟩
  | cons c cs ih =>
    by_cases h : isPySpace c
    · obtain ⟨w, hw, he⟩ := ih
      refine ⟨c :: w, ?_, ?_⟩
      · intro d hd
        rcases List.mem_cons.mp hd with rfl | hd
        · exact h
        · exact hw d hd
      · simpa [lstripL, h] using he
    · exact ⟨[], by simp, by simp [lstripL, h]⟩

/-- The first character surviving `lstripL` is not whitespace. -/
theorem lstripL_head (l : List Char) :
    (lstripL l).head?.all (fun c => !isPySpace c) = true := by
  induction l with
  | nil => simp [lstripL]
  | cons c cs ih =>
    by_cases h : isPySpace c
    · simpa [lstripL, h] using ih
    · simp [lstripL, h]

/-- `lstripL l` is a suffix of `l`. -/
theorem lstripL_suffix (l : List Char) : lstripL l <:+ l := by
  induction l with
  | nil => simp [lstripL]
  | cons c cs ih =>
    by_cases h : isPySpace c
    · simpa [lstripL, h] using ih.trans (List.suffix_cons c cs)
    · simp [lstripL, h]

/-- A nonempty suffix has the same last element as the whole list. -/
theorem getLast?_of_suffix {l₁ l₂ : List Char} (h : l₁ <:+ l₂) (hne : l₁ ≠ []) :
    l₂.getLast? = l₁.getLast? := by
  obtain ⟨t, rfl⟩ := h
  exact List.getLast?_append_of_ne_nil _ hne

/-- Characterisation of Python `str.strip()`: the original text decomposes as
whitespace, the stripped text, whitespace; and the stripped text neither
begins nor ends with a whitespace character. -/
theorem pyStrip_spec (s : String) :
    (∃ w1 w2 : List Char,
        s.data = w1 ++ (pyStrip s).data ++ w2 ∧
        (∀ c ∈ w1, isPySpace c = true) ∧ (∀ c ∈ w2, isPySpace c = true)) ∧
    (pyStrip s).data.head?.all (fun c => !isPySpace c) = true ∧
    (pyStrip s).data.getLast?.all (fun c => !isPySpace c) = true := by
  have hdata : (pyStrip s).data = lstripL (rstripL s.data) := rfl
  obtain ⟨wr, hwr, her⟩ := lstripL_decomp s.data.reverse
  have hs : s.data = rstripL s.data ++ wr.reverse := by
    have := congrArg List.reverse her
    simpa [rstripL, List.reverse_append] using this
  obtain ⟨w1, hw1, he1⟩ := lstripL_decomp (rstripL s.data)
  refine ⟨⟨w1, wr.reverse, ?_, hw1, ?_⟩, ?_, ?_⟩
  · rw [hdata]
    conv_lhs => rw [hs, he1]
  · intro c hc
    exact hwr c (List.mem_reverse.mp hc)
  · rw [hdata]; exact lstripL_head _
  · rw [hdata]
    rcases heq : lstripL (rstripL s.data) with _ | ⟨c, cs⟩
    · simp
    · have hne : lstripL (rstripL s.data) ≠ [] := by simp [heq]
      have hsuf := getLast?_of_suffix (lstripL_suffix (rstripL s.data)) hne
      have hrev : (rstripL s.data).getLast? = (lstripL s.data.reverse).head? := by
        simp [rstripL, List.getLast?_reverse]
      rw [← heq, ← hsuf, hrev]
      exact lstripL_head _

/-- `joinPath` with a fixed directory is injective in the filename. -/
theorem joinPath_inj_right (d : String) {f1 f2 : String}
    (h : joinPath d f1 = joinPath d f2) : f1 = f2 := by
  unfold joinPath at h
  by_cases hd : d = "."
  · simpa [hd] using h
  · rw [if_neg hd, if_neg hd] at h
    have h2 := congrArg String.data h
    simp only [String.data_append, List.append_assoc] at h2
    exact String.ext (List.append_cancel_left (List.append_cancel_left h2))

/-- Distinct filenames give distinct paths under the same directory. -/
theorem joinPath_ne_of_ne (d : String) {f1 f2 : String} (h : f1 ≠ f2) :
    joinPath d f1 ≠ joinPath d f2 :=
  fun he => h (joinPath_inj_right d he)

/-! ### Concrete fixtures used by witnesses and counterexamples -/

/-- A filesystem holding both input files. -/
def fsBoth : FileSys where
  files := fun p =>
    if p = "product.txt" then some "  a todo app \n"
    else if p = "tools.txt" then some "React, Postgres"
    else none
  dirs := []

/-- A filesystem missing the product-description file. -/
def fsNoProduct : FileSys where
  files := fun p => if p = "tools.txt" then some "React, Postgres" else none
  dirs := []

/-- A filesystem whose product file carries a no-break space and an
ideographic space, both stripped by Python. -/
def fsNbsp : FileSys where
  files := fun p =>
    if p = "product.txt" then some "\xa0 a todo app\u3000\n" else none
  dirs := []

/-- A concrete constructed workflow. -/
def wkA : Workflow where
  product_description := "a todo app"
  tools_list := "React, Postgres"
  output_dir := "out"

/-! ### The claims -/

/-- C1: for every pair of non-empty strings loaded by the workflow, the
string returned by `generate_architecture_prompt` contains both the product
description and the tools list verbatim as substrings. -/
theorem C1_arch_prompt_contains_inputs (w : Workflow)
    (hp : w.product_description ≠ "") (ht : w.tools_list ≠ "") :
    substringOf w.product_description (generate_architecture_prompt w) ∧
    substringOf w.tools_list (generate_architecture_prompt w) := by
  constructor
  · refine ⟨arch_template_pre.data,
      (arch_template_mid ++ w.tools_list ++ arch_template_post).data, ?_⟩
    simp [generate_architecture_prompt, String.data_append, List.append_assoc]
  · refine ⟨(arch_template_pre ++ w.product_description ++ arch_template_mid).data,
      arch_template_post.data, ?_⟩
    simp [generate_architecture_prompt, String.data_append, List.append_assoc]

/-- Witness for C1 at a concrete workflow. -/
theorem C1_arch_prompt_contains_inputs_witness :
    wkA.product_description ≠ "" ∧ wkA.tools_list ≠ "" ∧
    (substringOf wkA.product_description (generate_architecture_prompt wkA) ∧
     substringOf wkA.tools_list (generate_architecture_prompt wkA)) :=
  ⟨by decide, by decide, C1_arch_prompt_contains_inputs wkA (by decide) (by decide)⟩

/-- C2: for every string `x`, including the empty string, the string returned
by `generate_tasks_prompt x` contains `x` verbatim as a substring. -/
theorem C2_tasks_prompt_contains_arg (x : String) :
    substringOf x (generate_tasks_prompt x) := by
  refine ⟨tasks_template_pre.data, tasks_template_post.data, ?_⟩
  simp [generate_tasks_prompt, String.data_append, List.append_assoc]

/-- C8: for every existing file path, `_read_file` returns the file's text
content with leading and trailing whitespace removed: the result is the
original content minus a whitespace-only prefix and a whitespace-only suffix,
and it neither begins nor ends with a whitespace character. -/
theorem C8_read_file_trims (files : String → Option String) (p content : String)
    (h : files p = some content) :
    read_file files p = .ok (pyStrip content) ∧
    (∃ w1 w2 : List Char,
        content.data = w1 ++ (pyStrip content).data ++ w2 ∧
        (∀ c ∈ w1, isPySpace c = true) ∧ (∀ c ∈ w2, isPySpace c = true)) ∧
    (pyStrip content).data.head?.all (fun c => !isPySpace c) = true ∧
    (pyStrip content).data.getLast?.all (fun c => !isPySpace c) = true :=
  ⟨by simp [read_file, h], (pyStrip_spec content).1,
    (pyStrip_spec content).2.1, (pyStrip_spec content).2.2⟩

/-- Witness for C8 at a concrete filesystem and file. -/
theorem C8_read_file_trims_witness :
    fsNbsp.files "product.txt" = some "\xa0 a todo app\u3000\n" ∧
    (read_file fsNbsp.files "product.txt" =
        .ok (pyStrip "\xa0 a todo app\u3000\n") ∧
     (∃ w1 w2 : List Char,
        ("\xa0 a todo app\u3000\n" : String).data =
          w1 ++ (pyStrip "\xa0 a todo app\u3000\n").data ++ w2 ∧
        (∀ c ∈ w1, isPySpace c = true) ∧ (∀ c ∈ w2, isPySpace c = true)) ∧
     (pyStrip "\xa0 a todo app\u3000\n").data.head?.all
        (fun c => !isPySpace c) = true ∧
     (pyStrip "\xa0 a todo app\u3000\n").data.getLast?.all
        (fun c => !isPySpace c) = true) :=
  ⟨by decide,
    C8_read_file_trims fsNbsp.files "product.txt" "\xa0 a todo app\u3000\n"
      (by decide)⟩

/-- A filesystem with a stale artifact already present in the output
directory. -/
def fsStale : FileSys where
  files := fun p => if p = "out/architecture.md" then some "STALE TEXT" else none
  dirs := ["out"]

/-- C3 counterexample: with the completion-service credential absent from the
environment (an environment mapping every variable to `none`), the run does
not abort — it completes with exit status 0 and writes the architecture
artifact, contradicting the claim that it aborts before any file is read or
written. -/
theorem C3_counterexample :
    (main (fun _ => none) fsBoth ["product.txt", "tools.txt"] "out" true
        none).exit_code = 0 ∧
    (main (fun _ => none) fsBoth ["product.txt", "tools.txt"] "out" true
        none).fs.files "out/architecture.md" =
      some "[LLM Response would go here for: gpt-4]" := by
  decide

/-- C3 (amended): the program never reads the environment, so its behavior is
identical whether or not the completion-service credential is present; with
both input files present the run proceeds regardless of the credential and
exits with status 0. -/
theorem C3_credential_never_read (env env2 : String → Option String)
    (fs : FileSys) (positionals : List String) (output : String)
    (use_llm : Bool) (agents_template : Option String) (p t cp ct : String)
    (hp : fs.files p = some cp) (ht : fs.files t = some ct) :
    main env fs positionals output use_llm agents_template =
      main env2 fs positionals output use_llm agents_template ∧
    (main env fs [p, t] output use_llm agents_template).exit_code = 0 := by
  refine ⟨rfl, ?_⟩
  simp [main, parse_args, VibeWorkflow.init, read_file, hp, ht]

/-- Witness for the amended C3 at concrete environments and filesystem. -/
theorem C3_credential_never_read_witness :
    fsBoth.files "product.txt" = some "  a todo app \n" ∧
    fsBoth.files "tools.txt" = some "React, Postgres" ∧
    (main (fun _ => none) fsBoth ["product.txt", "tools.txt"] "out" true none =
       main (fun _ => some "secret-key") fsBoth ["product.txt", "tools.txt"]
         "out" true none ∧
     (main (fun _ => none) fsBoth ["product.txt", "tools.txt"] "out" true
         none).exit_code = 0) :=
  ⟨by decide, by decide,
    C3_credential_never_read (fun _ => none) (fun _ => some "secret-key")
      fsBoth ["product.txt", "tools.txt"] "out" true none
      "product.txt" "tools.txt" "  a todo app \n" "React, Postgres"
      (by decide) (by decide)⟩

/-- C4 counterexample: invoked with a wrong number of command-line arguments
(here none), the process exits with status 2, not 1. -/
theorem C4_counterexample :
    (main (fun _ => none) fsBoth [] "." false none).exit_code = 2 ∧
    (main (fun _ => none) fsBoth [] "." false none).exit_code ≠ 1 := by
  decide

/-- C4 (amended): with a wrong number of positional command-line arguments,
the program prints the usage message to stderr and the process exits with
status 2 (argparse's error status), touching neither filesystem nor
network. -/
theorem C4_wrong_arg_count (env : String → Option String) (fs : FileSys)
    (positionals : List String) (output : String) (use_llm : Bool)
    (agents_template : Option String) (h : positionals.length ≠ 2) :
    main env fs positionals output use_llm agents_template =
      { fs := fs, exit_code := 2, net_calls := 0, stderr := [usage_message] } := by
  rcases positionals with _ | ⟨a, _ | ⟨b, _ | ⟨c, rest⟩⟩⟩
  · rfl
  · rfl
  · exact absurd rfl h
  · rfl

/-- Witness for the amended C4 at a concrete empty argument list. -/
theorem C4_wrong_arg_count_witness :
    ([] : List String).length ≠ 2 ∧
    main (fun _ => none) fsBoth [] "." false none =
      { fs := fsBoth, exit_code := 2, net_calls := 0,
        stderr := [usage_message] } :=
  ⟨by decide,
    C4_wrong_arg_count (fun _ => none) fsBoth [] "." false none (by decide)⟩

/-- C5: if the product-description file does not exist, construction fails
with a `FileNotFoundError` whose message reports the offending path, `main`
prints that message to stderr and exits with status 1, the filesystem is
returned unchanged (no artifact written, no directory created), and no
network request is issued. -/
theorem C5_missing_product_file (env : String → Option String) (fs : FileSys)
    (product_file tools_file output : String) (use_llm : Bool)
    (agents_template : Option String) (h : fs.files product_file = none) :
    main env fs [product_file, tools_file] output use_llm agents_template =
      { fs := fs, exit_code := 1, net_calls := 0,
        stderr := ["Error: File not found: " ++ product_file] } ∧
    substringOf product_file ("Error: File not found: " ++ product_file) := by
  constructor
  · have hlit : ("Error: " : String) ++ "File not found: " =
        "Error: File not found: " := by decide
    have hmsg : ("Error: " : String) ++ ("File not found: " ++ product_file) =
        "Error: File not found: " ++ product_file := by
      rw [← String.append_assoc, hlit]
    simp [main, parse_args, VibeWorkflow.init, read_file, h, hmsg]
  · exact ⟨"Error: File not found: ".data, [],
      by simp [String.data_append]⟩

/-- Witness for C5 at a concrete filesystem lacking the product file. -/
theorem C5_missing_product_file_witness :
    fsNoProduct.files "product.txt" = none ∧
    (main (fun _ => none) fsNoProduct ["product.txt", "tools.txt"] "out" false
        none =
      { fs := fsNoProduct, exit_code := 1, net_calls := 0,
        stderr := ["Error: File not found: product.txt"] } ∧
     substringOf "product.txt" ("Error: File not found: " ++ "product.txt")) :=
  ⟨by decide,
    C5_missing_product_file (fun _ => none) fsNoProduct "product.txt"
      "tools.txt" "out" false none (by decide)⟩

/-- C6: if the co-located agents.md template file is absent,
`get_existing_agents_md` returns the hardcoded fallback string literal; if
the file exists, its content is returned and persisted to `agents.md`
unmodified. -/
theorem C6_agents_fallback_or_copy :
    get_existing_agents_md none = fallback_agents_md ∧
    (∀ content, get_existing_agents_md (some content) = content) ∧
    (∀ (w : Workflow) (fs : FileSys) (use_llm : Bool) (tmpl : Option String),
      ((w.run fs use_llm tmpl).1).files (joinPath w.output_dir "agents.md") =
        some (get_existing_agents_md tmpl)) := by
  refine ⟨rfl, fun _ => rfl, fun w fs u tmpl => ?_⟩
  simp [Workflow.run, save_file]

/-- C7: writing an artifact to a filename that already exists in the output
directory replaces the file's content entirely — afterwards the content
equals exactly the new content. -/
theorem C7_save_file_overwrites (fs : FileSys) (d f oldC newC : String)
    (h : fs.files (joinPath d f) = some oldC) :
    (save_file fs d f newC).files (joinPath d f) = some newC := by
  simp [save_file]

/-- Witness for C7 at a concrete stale artifact. -/
theorem C7_save_file_overwrites_witness :
    fsStale.files (joinPath "out" "architecture.md") = some "STALE TEXT" ∧
    (save_file fsStale "out" "architecture.md" "fresh").files
        (joinPath "out" "architecture.md") = some "fresh" :=
  ⟨by decide,
    C7_save_file_overwrites fsStale "out" "architecture.md" "STALE TEXT"
      "fresh" (by decide)⟩

/-- C9: `call_llm` issues no network request and returns the same fixed
placeholder string for every prompt, so in `--use-llm` mode the contents
written to `architecture.md` and `tasks.md` are that placeholder,
independent of the prompt text and of the loaded input files. -/
theorem C9_llm_placeholder_independent (prompt : String) (w : Workflow)
    (fs : FileSys) (tmpl : Option String) :
    call_llm prompt default_model =
      ("[LLM Response would go here for: gpt-4]", 0) ∧
    ((w.run fs true tmpl).1).files (joinPath w.output_dir "architecture.md") =
      some "[LLM Response would go here for: gpt-4]" ∧
    ((w.run fs true tmpl).1).files (joinPath w.output_dir "tasks.md") =
      some "[LLM Response would go here for: gpt-4]" ∧
    (w.run fs true tmpl).2 = 0 := by
  have h1 : joinPath w.output_dir "architecture.md" ≠
      joinPath w.output_dir "agents.md" :=
    joinPath_ne_of_ne _ (by decide)
  have h2 : joinPath w.output_dir "architecture.md" ≠
      joinPath w.output_dir "tasks.md" :=
    joinPath_ne_of_ne _ (by decide)
  have h3 : joinPath w.output_dir "tasks.md" ≠
      joinPath w.output_dir "agents.md" :=
    joinPath_ne_of_ne _ (by decide)
  refine ⟨rfl, ?_, ?_, rfl⟩
  · simp [Workflow.run, save_file, call_llm, default_model, h1, h2]
  · simp [Workflow.run, save_file, call_llm, default_model, h3]

/-- C10: if either input file is missing, the `VibeWorkflow` constructor
raises before the output directory is created: construction returns the
`FileNotFoundError` message together with the filesystem — files and created
directories alike — unchanged. -/
theorem C10_init_unchanged_on_missing_input (fs : FileSys)
    (product_file tools_file output_dir : String)
    (h : fs.files product_file = none ∨ fs.files tools_file = none) :
    ∃ e, VibeWorkflow.init fs product_file tools_file output_dir =
      (.error e, fs) := by
  rcases h with h | h
  · exact ⟨"File not found: " ++ product_file,
      by simp [VibeWorkflow.init, read_file, h]⟩
  · cases hp : fs.files product_file with
    | none =>
      exact ⟨"File not found: " ++ product_file,
        by simp [VibeWorkflow.init, read_file, hp]⟩
    | some c =>
      exact ⟨"File not found: " ++ tools_file,
        by simp [VibeWorkflow.init, read_file, hp, h]⟩

/-- Witness for C10 at a concrete filesystem lacking the product file. -/
theorem C10_init_unchanged_on_missing_input_witness :
    (fsNoProduct.files "product.txt" = none ∨
      fsNoProduct.files "tools.txt" = none) ∧
    ∃ e, VibeWorkflow.init fsNoProduct "product.txt" "tools.txt" "out" =
      (.error e, fsNoProduct) :=
  ⟨Or.inl (by decide),
    C10_init_unchanged_on_missing_input fsNoProduct "product.txt" "tools.txt"
      "out" (Or.inl (by decide))⟩

end Vibe
